import Mathlib

/-!
Shallow embedding of the account-termination repository.

The orchestration core is the AWS Step Functions state machine defined in
`src/stack.ts` (`createStepFunctionsTasks`); configuration utilities live in
`src/config.ts`.  Lambda bodies (`src/lambdas/*`) are external to `src/` and
are abstracted as stage behaviours; the metadata-store upsert is modelled
from the specification where noted.
-/

deriving instance DecidableEq for Except

namespace AccountTermination

/-! ## Lambda input/output interfaces, from `src/config.ts` -/

/-- From `config.ts` `PreCheckOutput.resourcesFound`. -/
structure ResourcesFound where
  ebsVolumes : Nat
  rdsInstances : Nat
deriving Repr, DecidableEq

/-- From `config.ts` `PreCheckOutput`. -/
structure PreCheckOutput where
  accountId : String
  safeToTerminate : Bool
  resourcesFound : ResourcesFound
  timestamp : String
deriving Repr, DecidableEq

/-- From `config.ts` `AccountManagementOutput`. -/
structure AccountManagementOutput where
  accountId : String
  suspended : Bool
  closureInitiated : Bool
  organizationalUnit : String
  timestamp : String
deriving Repr, DecidableEq

/-- From `config.ts` `MetadataUpdateOutput`. -/
structure MetadataUpdateOutput where
  accountId : String
  recordUpdated : Bool
  timestamp : String
deriving Repr, DecidableEq

/-- From `config.ts` `DecommissionOutput.results` entries. -/
structure VendorResult where
  success : Bool
  message : String
deriving Repr, DecidableEq

/-- From `config.ts` `DecommissionOutput`. -/
structure DecommissionOutput where
  accountId : String
  vendorsProcessed : List String
  results : List (String × VendorResult)
  timestamp : String
deriving Repr, DecidableEq

/-! ## Retry machinery (Amazon States Language retriers)

`stack.ts` lines 387-392 define `retryPolicy` and attach it with `addRetry`
to every Lambda task; each `LambdaInvoke` is constructed with
`retryOnServiceExceptions: true`, which prepends the CDK service-exception
retrier.  A retrier handles an error when its error-name list contains the
error; retriers are consulted in order and the first match is used, each
with its own attempt counter (Amazon States Language semantics). -/

/-- One Step Functions retrier (`addRetry` entry). -/
structure Retrier where
  errors : List String
  intervalSeconds : Nat
  maxAttempts : Nat
  backoffRate : ℚ
deriving Repr, DecidableEq

/-- `stack.ts` lines 387-392: the explicit retry policy added to all four tasks. -/
def retryPolicy : Retrier :=
  { errors := ["Lambda.ServiceException", "Lambda.AWSLambdaException", "Lambda.SdkClientException"]
    intervalSeconds := 2
    maxAttempts := 3
    backoffRate := 2 }

/-- The retrier the CDK `LambdaInvoke` construct adds first because every task
in `stack.ts` is built with `retryOnServiceExceptions: true` (interval 2s,
6 attempts, backoff 2). -/
def serviceExceptionsRetry : Retrier :=
  { errors := ["Lambda.ClientExecutionTimeoutException", "Lambda.ServiceException",
               "Lambda.AWSLambdaException", "Lambda.SdkClientException"]
    intervalSeconds := 2
    maxAttempts := 6
    backoffRate := 2 }

/-- Retrier list attached to each of the four Lambda tasks, in attachment order. -/
def lambdaTaskRetriers : List Retrier := [serviceExceptionsRetry, retryPolicy]

/-- Whether a retrier handles a given error name. -/
def retrierMatches (r : Retrier) (e : String) : Bool :=
  r.errors.contains "States.ALL" || r.errors.contains e

/-- Consult the retriers in order with their per-retrier attempt counters:
return the updated counters when the first matching retrier still has
attempts left, `none` when no retry happens (no match, or exhausted). -/
def tryRetry : List Retrier → List Nat → String → Option (List Nat)
  | [], _, _ => none
  | _ :: _, [], _ => none
  | r :: rs, c :: cs, e =>
    if retrierMatches r e then
      (if c < r.maxAttempts then some ((c + 1) :: cs) else none)
    else
      (tryRetry rs cs e).map (fun cs2 => c :: cs2)

/-- Fuel bound: one initial attempt plus the attempt budget of every retrier. -/
def totalBudget (rs : List Retrier) : Nat :=
  (rs.map (fun r => r.maxAttempts)).sum + 1

/-- Run one task against an attempt-indexed behaviour, threading retrier
counters; returns (number of invocations, final outcome). -/
def runTaskAux (beh : Nat → Except String α) (rs : List Retrier) :
    Nat → List Nat → Nat → Nat × Except String α
  | 0, _, attempt => (attempt, Except.error "States.Runtime")
  | Nat.succ fuel, cs, attempt =>
    match beh attempt with
    | Except.ok a => (attempt + 1, Except.ok a)
    | Except.error e =>
      match tryRetry rs cs e with
      | some cs2 => runTaskAux beh rs fuel cs2 (attempt + 1)
      | none => (attempt + 1, Except.error e)

/-- Run a task to its final outcome under a retrier list. -/
def runTask (beh : Nat → Except String α) (rs : List Retrier) :
    Nat × Except String α :=
  runTaskAux beh rs (totalBudget rs) (rs.map (fun _ => 0)) 0

/-- Run a Lambda task under the retriers attached in `stack.ts`. -/
def runLambdaTask (beh : Nat → Except String α) : Nat × Except String α :=
  runTask beh lambdaTaskRetriers

/-- Wait before the (i+1)-th retry of a retrier: exponential backoff,
`intervalSeconds` scaled by `backoffRate` per prior retry. -/
def backoffDelay (r : Retrier) (i : Nat) : ℚ :=
  (r.intervalSeconds : ℚ) * r.backoffRate ^ i

/-- C7: for the retry policy of `stack.ts` (interval 2, backoff rate 2.0),
consecutive retry delays are non-decreasing and each successive delay is the
previous one times the configured multiplier. -/
theorem C7_backoff_growth (i : Nat) :
    backoffDelay retryPolicy (i + 1) = retryPolicy.backoffRate * backoffDelay retryPolicy i ∧
    backoffDelay retryPolicy i ≤ backoffDelay retryPolicy (i + 1) := by
  constructor
  · unfold backoffDelay
    rw [pow_succ]
    ring
  · unfold backoffDelay
    have h2 : (retryPolicy.backoffRate : ℚ) = 2 := rfl
    have hiv : ((retryPolicy.intervalSeconds : ℚ)) = 2 := rfl
    rw [h2, hiv]
    have hpow : (2 : ℚ) ^ i ≤ 2 ^ (i + 1) := by
      apply pow_le_pow_right₀
      · norm_num
      · exact Nat.le_succ i
    nlinarith [hpow]

/-! ## The state machine of `createStepFunctionsTasks` (`stack.ts` lines 321-440)

States and wiring, from the source:
  `definition = preCheckTask.next(safetyCheck)` (line 437);
  `safetyCheck.when(booleanEquals($.safeToTerminate, false),
     safetyViolationNotification.next(safetyViolationState))` (lines 424-428);
  `.otherwise(accountManagementTask.next(metadataUpdateTask)
     .next(decommissionTask).next(successNotification).next(successState))`
  (lines 429-435).
Every Lambda task has `addCatch(failureState, { errors: [States.ALL] })`
(lines 395-417), routing its failure directly to the `TerminationFailed`
Fail state.  The `FailureNotification` SnsPublish task (lines 360-364) is
constructed but never chained into the definition.  The three SnsPublish
states have no retry and no catch, so a publish error is unhandled and
aborts the execution (Amazon States Language semantics). -/

/-- Terminal result of one execution of the state machine. -/
inductive TerminalOutcome where
  | succeeded
  | failed
  | safetyViolation
  | unhandledError (errorName : String)
deriving Repr, DecidableEq

/-- Behaviour of the external collaborators for one execution: each Lambda
maps the attempt index to its outcome (payload or error name); each SNS
publish either succeeds or yields an error name. -/
structure Behaviors where
  preCheck : Nat → Except String PreCheckOutput
  accountManagement : Nat → Except String AccountManagementOutput
  metadataUpdate : Nat → Except String MetadataUpdateOutput
  decommission : Nat → Except String DecommissionOutput
  publishSafetyViolation : Except String Unit
  publishSuccess : Except String Unit
  publishFailure : Except String Unit

/-- Observable record of one execution: terminal state, per-task invocation
counts, per-channel publish attempts, and the decommission results summary
carried in the output. -/
structure WorkflowRun where
  terminal : TerminalOutcome
  preCheckInvocations : Nat
  accountManagementInvocations : Nat
  metadataUpdateInvocations : Nat
  decommissionInvocations : Nat
  safetyNotificationAttempts : Nat
  successNotificationAttempts : Nat
  failureNotificationAttempts : Nat
  decommissionSummary : Option (List (String × VendorResult))
deriving Repr, DecidableEq

/-- Run reaching `TerminationFailed` through a task catch (`addCatch` routes
straight to the Fail state, so no notification state executes). -/
def failedRun (nPre nAm nMu nDc : Nat) : WorkflowRun :=
  { terminal := TerminalOutcome.failed
    preCheckInvocations := nPre
    accountManagementInvocations := nAm
    metadataUpdateInvocations := nMu
    decommissionInvocations := nDc
    safetyNotificationAttempts := 0
    successNotificationAttempts := 0
    failureNotificationAttempts := 0
    decommissionSummary := none }

/-- The `safetyCheck.when` branch: `SafetyViolationNotification` then the
`SafetyViolation` Fail state; an unhandled publish error aborts the execution. -/
def safetyBranch (b : Behaviors) (nPre : Nat) : WorkflowRun :=
  match b.publishSafetyViolation with
  | Except.ok _ =>
    { terminal := TerminalOutcome.safetyViolation
      preCheckInvocations := nPre
      accountManagementInvocations := 0
      metadataUpdateInvocations := 0
      decommissionInvocations := 0
      safetyNotificationAttempts := 1
      successNotificationAttempts := 0
      failureNotificationAttempts := 0
      decommissionSummary := none }
  | Except.error e =>
    { terminal := TerminalOutcome.unhandledError e
      preCheckInvocations := nPre
      accountManagementInvocations := 0
      metadataUpdateInvocations := 0
      decommissionInvocations := 0
      safetyNotificationAttempts := 1
      successNotificationAttempts := 0
      failureNotificationAttempts := 0
      decommissionSummary := none }

/-- The `safetyCheck.otherwise` chain: AccountManagement, MetadataUpdate,
Decommission, SuccessNotification, Succeed; each task failure is caught to
the Fail state, an unhandled publish error aborts the execution. -/
def mainBranch (b : Behaviors) (nPre : Nat) : WorkflowRun :=
  match runLambdaTask b.accountManagement with
  | (nAm, Except.error _) => failedRun nPre nAm 0 0
  | (nAm, Except.ok _) =>
    match runLambdaTask b.metadataUpdate with
    | (nMu, Except.error _) => failedRun nPre nAm nMu 0
    | (nMu, Except.ok _) =>
      match runLambdaTask b.decommission with
      | (nDc, Except.error _) => failedRun nPre nAm nMu nDc
      | (nDc, Except.ok d) =>
        match b.publishSuccess with
        | Except.ok _ =>
          { terminal := TerminalOutcome.succeeded
            preCheckInvocations := nPre
            accountManagementInvocations := nAm
            metadataUpdateInvocations := nMu
            decommissionInvocations := nDc
            safetyNotificationAttempts := 0
            successNotificationAttempts := 1
            failureNotificationAttempts := 0
            decommissionSummary := some d.results }
        | Except.error e =>
          { terminal := TerminalOutcome.unhandledError e
            preCheckInvocations := nPre
            accountManagementInvocations := nAm
            metadataUpdateInvocations := nMu
            decommissionInvocations := nDc
            safetyNotificationAttempts := 0
            successNotificationAttempts := 1
            failureNotificationAttempts := 0
            decommissionSummary := some d.results }

/-- One execution of the state machine: PreCheck, then the SafetyCheck
choice on `$.safeToTerminate`, then the chosen branch. -/
def runStateMachine (b : Behaviors) : WorkflowRun :=
  match runLambdaTask b.preCheck with
  | (nPre, Except.error _) => failedRun nPre 0 0 0
  | (nPre, Except.ok out) =>
    if out.safeToTerminate = false then safetyBranch b nPre
    else mainBranch b nPre

/-- The Step Functions execution input (README: `{ "accountId": ... }`).
The definition chain starts at `PreCheckTask` (line 437): there is no state
that inspects `accountId`, so starting an execution ignores it. -/
structure WorkflowInput where
  accountId : String
deriving Repr, DecidableEq

/-- Start an execution: the definition contains no validation state, so the
input is handed to `PreCheckTask` regardless of its shape. -/
def startExecution (_input : WorkflowInput) (b : Behaviors) : WorkflowRun :=
  runStateMachine b

/-- Modelled from the spec: the fixed-length numeric identifier format
(12-digit string) required of `accountId`; the repository contains no
implementation of this check (its property tests for it are placeholders). -/
def isValidAccountId (s : String) : Bool :=
  s.length == 12 && s.all (fun c => c.isDigit)

/-! ## Concrete executions used as test inputs -/

/-- Pre-check payload with zero critical resources. -/
def safePreCheckOut : PreCheckOutput :=
  { accountId := "999999999999"
    safeToTerminate := true
    resourcesFound := { ebsVolumes := 0, rdsInstances := 0 }
    timestamp := "t0" }

/-- Pre-check payload reporting two EBS volumes, hence unsafe. -/
def flaggedPreCheckOut : PreCheckOutput :=
  { accountId := "123456789012"
    safeToTerminate := false
    resourcesFound := { ebsVolumes := 2, rdsInstances := 0 }
    timestamp := "t0" }

def amOkOut : AccountManagementOutput :=
  { accountId := "999999999999"
    suspended := true
    closureInitiated := true
    organizationalUnit := "ou-suspended"
    timestamp := "t1" }

def muOkOut : MetadataUpdateOutput :=
  { accountId := "999999999999"
    recordUpdated := true
    timestamp := "t2" }

def dcOkOut : DecommissionOutput :=
  { accountId := "999999999999"
    vendorsProcessed := ["Prisma"]
    results := [("Prisma", { success := true, message := "decommissioned" })]
    timestamp := "t3" }

/-- Decommission payload whose summary marks the vendor as failed. -/
def dcVendorFailedOut : DecommissionOutput :=
  { accountId := "999999999999"
    vendorsProcessed := ["Prisma"]
    results := [("Prisma", { success := false, message := "vendor API error" })]
    timestamp := "t3" }

/-- Every stage and publish succeeds. -/
def happyBehaviors : Behaviors :=
  { preCheck := fun _ => Except.ok safePreCheckOut
    accountManagement := fun _ => Except.ok amOkOut
    metadataUpdate := fun _ => Except.ok muOkOut
    decommission := fun _ => Except.ok dcOkOut
    publishSafetyViolation := Except.ok ()
    publishSuccess := Except.ok ()
    publishFailure := Except.ok () }

/-- Unsafe pre-check, everything else succeeds. -/
def flaggedBehaviors : Behaviors :=
  { happyBehaviors with preCheck := fun _ => Except.ok flaggedPreCheckOut }

/-- Unsafe pre-check and the safety-violation publish fails. -/
def flaggedSnsFailBehaviors : Behaviors :=
  { flaggedBehaviors with publishSafetyViolation := Except.error "SNS.ServiceException" }

/-- Only the decommission task fails, with a non-retryable vendor error. -/
def vendorFailBehaviors : Behaviors :=
  { happyBehaviors with decommission := fun _ => Except.error "Prisma.ApiError" }

/-- Only the decommission task fails, with a retried Lambda service exception. -/
def vendorLambdaErrBehaviors : Behaviors :=
  { happyBehaviors with decommission := fun _ => Except.error "Lambda.ServiceException" }

/-- Decommission succeeds but its summary marks the vendor as failed. -/
def vendorMarkedBehaviors : Behaviors :=
  { happyBehaviors with decommission := fun _ => Except.ok dcVendorFailedOut }

/-- The account-management executor always throws a transient stage error. -/
def transientAmBehaviors : Behaviors :=
  { happyBehaviors with accountManagement := fun _ => Except.error "TransientStageError" }

/-- The decommission executor always throws a transient stage error. -/
def transientVendorBehaviors : Behaviors :=
  { happyBehaviors with decommission := fun _ => Except.error "TransientStageError" }

/-- The account-management task fails with a retried Lambda service exception. -/
def amLambdaErrBehaviors : Behaviors :=
  { happyBehaviors with accountManagement := fun _ => Except.error "Lambda.ServiceException" }

/-- All stages succeed but the success publish fails. -/
def successNotifFailBehaviors : Behaviors :=
  { happyBehaviors with publishSuccess := Except.error "SNS.ServiceException" }

/-! ## Claim theorems -/

/-- C1 counterexample: an execution whose pre-check reports two EBS volumes
(`safeToTerminate = false`) but whose safety-violation publish fails does not
end in the `SafetyViolation` terminal state — the publish error is unhandled
(`SafetyViolationNotification` has no catch), so the claim as stated fails. -/
theorem C1_counterexample :
    runLambdaTask flaggedSnsFailBehaviors.preCheck = (1, Except.ok flaggedPreCheckOut) ∧
    flaggedPreCheckOut.safeToTerminate = false ∧
    flaggedPreCheckOut.resourcesFound.ebsVolumes = 2 ∧
    (runStateMachine flaggedSnsFailBehaviors).terminal ≠ TerminalOutcome.safetyViolation := by
  decide

/-- C1 (amended): when the pre-check outcome reports `safeToTerminate = false`,
the AccountManagement, MetadataUpdate and Decommission tasks are never invoked
and exactly one safety-violation publish is attempted; provided that publish
succeeds, the terminal state is `SafetyViolation`. -/
theorem C1_safety_gate (b : Behaviors) (n : Nat) (out : PreCheckOutput)
    (hpre : runLambdaTask b.preCheck = (n, Except.ok out))
    (hflag : out.safeToTerminate = false) :
    (runStateMachine b).accountManagementInvocations = 0 ∧
    (runStateMachine b).metadataUpdateInvocations = 0 ∧
    (runStateMachine b).decommissionInvocations = 0 ∧
    (runStateMachine b).safetyNotificationAttempts = 1 ∧
    (b.publishSafetyViolation = Except.ok () →
      (runStateMachine b).terminal = TerminalOutcome.safetyViolation) := by
  have hrun : runStateMachine b = safetyBranch b n := by
    unfold runStateMachine
    rw [hpre]
    simp [hflag]
  rw [hrun]
  unfold safetyBranch
  cases hp : b.publishSafetyViolation with
  | ok u => simp
  | error e => simp [hp]

/-- C1 witness: the amended theorem applied to a concrete unsafe execution. -/
theorem C1_witness :
    (runStateMachine flaggedBehaviors).safetyNotificationAttempts = 1 ∧
    (runStateMachine flaggedBehaviors).terminal = TerminalOutcome.safetyViolation := by
  have h := C1_safety_gate flaggedBehaviors 1 flaggedPreCheckOut (by decide) (by decide)
  exact ⟨h.2.2.2.1, h.2.2.2.2 rfl⟩

/-- C2 counterexample: an execution in which only the decommission task fails
ends in `Failed`, not `Succeeded` — `decommissionTask.addCatch(failureState)`
makes the vendor stage fatal; likewise after genuine retry exhaustion of a
Lambda service exception (7 invocations). -/
theorem C2_counterexample :
    runLambdaTask vendorFailBehaviors.accountManagement = (1, Except.ok amOkOut) ∧
    runLambdaTask vendorFailBehaviors.metadataUpdate = (1, Except.ok muOkOut) ∧
    (runLambdaTask vendorFailBehaviors.decommission).2 = Except.error "Prisma.ApiError" ∧
    (runStateMachine vendorFailBehaviors).terminal = TerminalOutcome.failed ∧
    (runStateMachine vendorFailBehaviors).terminal ≠ TerminalOutcome.succeeded ∧
    (runStateMachine vendorLambdaErrBehaviors).decommissionInvocations = 7 ∧
    (runStateMachine vendorLambdaErrBehaviors).terminal = TerminalOutcome.failed := by
  decide

/-- C2 (amended): a decommission-task failure after retry exhaustion routes to
the `Failed` terminal state with no success notification; a vendor failure is
tolerated only when the decommission task itself succeeds and reports it in
its results, in which case the workflow reaches `Succeeded` with that summary
recorded. -/
theorem C2_vendor_failure (b : Behaviors) (n nAm nMu : Nat) (out : PreCheckOutput)
    (amOut : AccountManagementOutput) (muOut : MetadataUpdateOutput)
    (hpre : runLambdaTask b.preCheck = (n, Except.ok out))
    (hsafe : out.safeToTerminate = true)
    (ham : runLambdaTask b.accountManagement = (nAm, Except.ok amOut))
    (hmu : runLambdaTask b.metadataUpdate = (nMu, Except.ok muOut)) :
    (∀ nDc e, runLambdaTask b.decommission = (nDc, Except.error e) →
      (runStateMachine b).terminal = TerminalOutcome.failed ∧
      (runStateMachine b).successNotificationAttempts = 0) ∧
    (∀ nDc d, runLambdaTask b.decommission = (nDc, Except.ok d) →
      b.publishSuccess = Except.ok () →
      (runStateMachine b).terminal = TerminalOutcome.succeeded ∧
      (runStateMachine b).decommissionSummary = some d.results) := by
  have hrun : runStateMachine b = mainBranch b n := by
    unfold runStateMachine
    rw [hpre]
    simp [hsafe]
  rw [hrun]
  unfold mainBranch
  rw [ham, hmu]
  constructor
  · intro nDc e hdc
    rw [hdc]
    simp [failedRun]
  · intro nDc d hdc hpub
    rw [hdc, hpub]
    simp

/-- C2 witness: the amended theorem applied to an execution whose decommission
output marks the vendor as failed — the workflow still reaches `Succeeded` and
the summary records the failure. -/
theorem C2_witness :
    (runStateMachine vendorMarkedBehaviors).terminal = TerminalOutcome.succeeded ∧
    (runStateMachine vendorMarkedBehaviors).decommissionSummary =
      some [("Prisma", { success := false, message := "vendor API error" })] := by
  have h := C2_vendor_failure vendorMarkedBehaviors 1 1 1 safePreCheckOut amOkOut muOkOut
    (by decide) rfl (by decide) (by decide)
  exact h.2 1 dcVendorFailedOut (by decide) rfl

/-- The `FailureNotification` SnsPublish task of `stack.ts` lines 360-364 is
never part of the definition chain, so no execution ever attempts it. -/
theorem failureNotificationAttempts_eq_zero (b : Behaviors) :
    (runStateMachine b).failureNotificationAttempts = 0 := by
  unfold runStateMachine
  cases hpre : runLambdaTask b.preCheck with
  | mk n rPre =>
    cases rPre with
    | error e => simp [failedRun]
    | ok out =>
      by_cases hs : out.safeToTerminate = false
      · simp only [hs, if_true, if_pos]
        unfold safetyBranch
        cases b.publishSafetyViolation <;> simp
      · simp only [if_neg hs]
        unfold mainBranch
        cases ham : runLambdaTask b.accountManagement with
        | mk nAm rAm =>
          cases rAm with
          | error e => simp [failedRun]
          | ok _ =>
            cases hmu : runLambdaTask b.metadataUpdate with
            | mk nMu rMu =>
              cases rMu with
              | error e => simp [failedRun]
              | ok _ =>
                cases hdc : runLambdaTask b.decommission with
                | mk nDc rDc =>
                  cases rDc with
                  | error e => simp [failedRun]
                  | ok d => cases b.publishSuccess <;> simp

/-- C3: an execution whose AccountManagement task exhausts its retries (seven
invocations of a Lambda service exception) reaches the `Failed` terminal state
without any failure notification being attempted — the catch routes straight
to the Fail state and the constructed `FailureNotification` task is never
chained (contradicting the workflow diagram of the README); indeed no execution
ever attempts a failure notification. -/
theorem C3_failure_without_notification :
    (runStateMachine amLambdaErrBehaviors).accountManagementInvocations = 7 ∧
    (runStateMachine amLambdaErrBehaviors).terminal = TerminalOutcome.failed ∧
    (runStateMachine amLambdaErrBehaviors).failureNotificationAttempts = 0 ∧
    (∀ b : Behaviors, (runStateMachine b).failureNotificationAttempts = 0) :=
  ⟨by decide, by decide, by decide, failureNotificationAttempts_eq_zero⟩

/-- C4: the state machine definition begins at `PreCheckTask` with no
validation state: a malformed `accountId` ("abc" is not a 12-digit string)
does not fail with a `ValidationError` before any stage — the PreCheck stage
is invoked once and the workflow can even run to `Succeeded`; the input is
ignored by the orchestration entirely. -/
theorem C4_no_input_validation :
    isValidAccountId "abc" = false ∧
    (startExecution { accountId := "abc" } happyBehaviors).preCheckInvocations = 1 ∧
    (startExecution { accountId := "abc" } happyBehaviors).terminal = TerminalOutcome.succeeded ∧
    (∀ (i j : WorkflowInput) (b : Behaviors), startExecution i b = startExecution j b) :=
  ⟨by decide, by decide, by decide, fun _ _ _ => rfl⟩

/-- C5 counterexample: with `retryPolicy.maxAttempts = 3`, an executor that
always throws `TransientStageError` is invoked once, not three times (the
retriers match only Lambda service-exception names), and the saga ends in
`Failed`; a matched Lambda service exception is invoked seven times (the CDK
service-exception retrier, consulted first, allows six retries); the vendor
stage likewise ends in `Failed`, not `Succeeded`. -/
theorem C5_counterexample :
    retryPolicy.maxAttempts = 3 ∧
    (runStateMachine transientAmBehaviors).accountManagementInvocations = 1 ∧
    (runStateMachine transientAmBehaviors).accountManagementInvocations ≠ retryPolicy.maxAttempts ∧
    (runStateMachine transientAmBehaviors).terminal = TerminalOutcome.failed ∧
    (runStateMachine amLambdaErrBehaviors).accountManagementInvocations ≠ retryPolicy.maxAttempts ∧
    (runStateMachine transientVendorBehaviors).decommissionInvocations = 1 ∧
    (runStateMachine transientVendorBehaviors).terminal ≠ TerminalOutcome.succeeded := by
  decide

/-- C5 (amended): an executor that always throws `TransientStageError` is
invoked exactly once — no configured retrier matches an executor-thrown error
name — and the saga ends in the `Failed` terminal state, for the account
management stage and for the vendor stage alike. -/
theorem C5_retry_bound (b : Behaviors) (n : Nat) (out : PreCheckOutput)
    (hpre : runLambdaTask b.preCheck = (n, Except.ok out))
    (hsafe : out.safeToTerminate = true) :
    ((∀ k, b.accountManagement k = Except.error "TransientStageError") →
      (runStateMachine b).accountManagementInvocations = 1 ∧
      (runStateMachine b).terminal = TerminalOutcome.failed) ∧
    (∀ nAm nMu amOut muOut,
      runLambdaTask b.accountManagement = (nAm, Except.ok amOut) →
      runLambdaTask b.metadataUpdate = (nMu, Except.ok muOut) →
      (∀ k, b.decommission k = Except.error "TransientStageError") →
      (runStateMachine b).decommissionInvocations = 1 ∧
      (runStateMachine b).terminal = TerminalOutcome.failed) := by
  have hrun : runStateMachine b = mainBranch b n := by
    unfold runStateMachine
    rw [hpre]
    simp [hsafe]
  constructor
  · intro ham
    have hfun : b.accountManagement = fun _ => Except.error "TransientStageError" :=
      funext ham
    have h1 : runLambdaTask b.accountManagement = (1, Except.error "TransientStageError") := by
      rw [hfun]; decide
    rw [hrun]
    unfold mainBranch
    rw [h1]
    simp [failedRun]
  · intro nAm nMu amOut muOut ham hmu hdc
    have hfun : b.decommission = fun _ => Except.error "TransientStageError" :=
      funext hdc
    have h1 : runLambdaTask b.decommission = (1, Except.error "TransientStageError") := by
      rw [hfun]; decide
    rw [hrun]
    unfold mainBranch
    rw [ham, hmu, h1]
    simp [failedRun]

/-- C5 witness: the amended theorem applied to the concrete always-transient
account-management executor. -/
theorem C5_witness :
    (runStateMachine transientAmBehaviors).accountManagementInvocations = 1 ∧
    (runStateMachine transientAmBehaviors).terminal = TerminalOutcome.failed := by
  have h := C5_retry_bound transientAmBehaviors 1 safePreCheckOut (by decide) rfl
  exact h.1 (fun _ => rfl)

/-- C6 counterexample: two executions identical except for the success-publish
outcome end in different terminal states — a notification failure aborts the
execution (`SuccessNotification` has no catch), so the workflow does fail and
its terminal state is affected. -/
theorem C6_counterexample :
    (runStateMachine successNotifFailBehaviors).terminal =
      TerminalOutcome.unhandledError "SNS.ServiceException" ∧
    (runStateMachine successNotifFailBehaviors).terminal ≠ TerminalOutcome.succeeded ∧
    (runStateMachine happyBehaviors).terminal = TerminalOutcome.succeeded := by
  decide

/-- C6 (amended): the orchestrator never retries a notification publish (at
most one attempt per channel, and the failure channel is never attempted), but
notification outcomes do affect the terminal state: `Succeeded` is reached
only when the success publish succeeded, and `SafetyViolation` only when the
safety publish succeeded — a publish failure aborts the execution instead. -/
theorem C6_notification_not_isolated (b : Behaviors) :
    (runStateMachine b).successNotificationAttempts ≤ 1 ∧
    (runStateMachine b).safetyNotificationAttempts ≤ 1 ∧
    (runStateMachine b).failureNotificationAttempts = 0 ∧
    ((runStateMachine b).terminal = TerminalOutcome.succeeded →
      b.publishSuccess = Except.ok ()) ∧
    ((runStateMachine b).terminal = TerminalOutcome.safetyViolation →
      b.publishSafetyViolation = Except.ok ()) := by
  refine ⟨?_, ?_, failureNotificationAttempts_eq_zero b, ?_, ?_⟩ <;>
  · unfold runStateMachine
    cases hpre : runLambdaTask b.preCheck with
    | mk n rPre =>
      cases rPre with
      | error e => simp [failedRun]
      | ok out =>
        by_cases hs : out.safeToTerminate = false
        · simp only [hs, if_pos]
          unfold safetyBranch
          cases hp : b.publishSafetyViolation <;> simp
        · simp only [if_neg hs]
          unfold mainBranch
          cases ham : runLambdaTask b.accountManagement with
          | mk nAm rAm =>
            cases rAm with
            | error e => simp [failedRun]
            | ok _ =>
              cases hmu : runLambdaTask b.metadataUpdate with
              | mk nMu rMu =>
                cases rMu with
                | error e => simp [failedRun]
                | ok _ =>
                  cases hdc : runLambdaTask b.decommission with
                  | mk nDc rDc =>
                    cases rDc with
                    | error e => simp [failedRun]
                    | ok d => cases hp : b.publishSuccess <;> simp

/-- C6 witness: the amended theorem applied to the all-success execution. -/
theorem C6_witness :
    (runStateMachine happyBehaviors).successNotificationAttempts ≤ 1 ∧
    happyBehaviors.publishSuccess = Except.ok () := by
  have h := C6_notification_not_isolated happyBehaviors
  exact ⟨h.1, h.2.2.2.1 (by decide)⟩

/-! ## Configuration utilities, from `src/config.ts` -/

/-- JavaScript string truthiness: a string is truthy iff it is non-empty. -/
def truthy (s : String) : Bool := !(s == "")

/-- JavaScript `process.env.X || default`: the value of the variable when set and
non-empty, the default otherwise. -/
def envOrDefault (v : Option String) (d : String) : String :=
  match v with
  | some s => if truthy s then s else d
  | none => d

/-- The environment variables read by the constructor of `AwsConfigManager`
(`config.ts` lines 107-114); `none` models an unset variable. -/
structure ConfigEnv where
  awsRegion : Option String
  managementAccountRoleArn : Option String
  suspendedOuId : Option String
  dynamoDbTableName : Option String
deriving Repr, DecidableEq

/-- From `config.ts` `AwsServiceConfig`. -/
structure AwsServiceConfig where
  region : String
  managementAccountRoleArn : String
  suspendedOuId : String
  dynamoDbTableName : String
deriving Repr, DecidableEq

/-- The config built by the private constructor of `AwsConfigManager`
(`config.ts` lines 108-113). -/
def mkAwsServiceConfig (env : ConfigEnv) : AwsServiceConfig :=
  { region := envOrDefault env.awsRegion "us-east-1"
    managementAccountRoleArn := envOrDefault env.managementAccountRoleArn ""
    suspendedOuId := envOrDefault env.suspendedOuId ""
    dynamoDbTableName := envOrDefault env.dynamoDbTableName "account-termination-metadata" }

/-- `AwsConfigManager.validateConfig` (`config.ts` lines 127-134):
`!!(region && managementAccountRoleArn && suspendedOuId && dynamoDbTableName)`. -/
def validateConfig (c : AwsServiceConfig) : Bool :=
  truthy c.region && truthy c.managementAccountRoleArn &&
    truthy c.suspendedOuId && truthy c.dynamoDbTableName

/-- The environment variables read by `getVpcConfig` (`config.ts` lines 137-144). -/
structure VpcEnv where
  vpcId : Option String
  privateSubnetIds : Option String
  securityGroupIds : Option String
  natGatewayId : Option String
deriving Repr, DecidableEq

/-- From `config.ts` `VpcConfig`. -/
structure VpcConfig where
  vpcId : String
  privateSubnetIds : List String
  securityGroupIds : List String
  natGatewayId : Option String
deriving Repr, DecidableEq

/-- JavaScript `s.split(',')`: split at every comma, keeping empty pieces, so
splitting the empty string yields `[""]`. -/
def jsSplitComma (s : String) : List String :=
  (s.toList.splitOn ',').map (fun cs => String.mk cs)

/-- JavaScript `s.trim()`: drop whitespace from both ends. -/
def jsTrim (s : String) : String :=
  String.mk (((s.toList.dropWhile Char.isWhitespace).reverse.dropWhile
    Char.isWhitespace).reverse)

/-- `getVpcConfig` (`config.ts` lines 137-144): comma-split the variable and
keep only entries whose trim is truthy. -/
def getVpcConfig (env : VpcEnv) : VpcConfig :=
  { vpcId := envOrDefault env.vpcId ""
    privateSubnetIds :=
      (jsSplitComma (envOrDefault env.privateSubnetIds "")).filter
        (fun id => truthy (jsTrim id))
    securityGroupIds :=
      (jsSplitComma (envOrDefault env.securityGroupIds "")).filter
        (fun id => truthy (jsTrim id))
    natGatewayId := env.natGatewayId }

/-- A default with a non-empty fallback is itself non-empty. -/
theorem envOrDefault_ne_empty (v : Option String) (d : String) (hd : d ≠ "") :
    envOrDefault v d ≠ "" := by
  unfold envOrDefault
  cases v with
  | none => exact hd
  | some s =>
    by_cases hs : truthy s = true
    · simp only [hs, if_true, if_pos]
      intro h
      rw [h] at hs
      simp [truthy] at hs
    · simp only [hs, if_neg]
      simp at hs
      exact hd

/-- C9: `validateConfig` is true exactly when all four fields are non-empty;
and on any config built from the environment, the region and table-name
defaults are non-empty, so it is false exactly when the management-account
role ARN or the suspended-OU id is empty. -/
theorem C9_validateConfig (env : ConfigEnv) :
    (validateConfig (mkAwsServiceConfig env) = true ↔
      (mkAwsServiceConfig env).region ≠ "" ∧
      (mkAwsServiceConfig env).managementAccountRoleArn ≠ "" ∧
      (mkAwsServiceConfig env).suspendedOuId ≠ "" ∧
      (mkAwsServiceConfig env).dynamoDbTableName ≠ "") ∧
    (validateConfig (mkAwsServiceConfig env) = false ↔
      ((mkAwsServiceConfig env).managementAccountRoleArn = "" ∨
        (mkAwsServiceConfig env).suspendedOuId = "")) := by
  have hreg : (mkAwsServiceConfig env).region ≠ "" :=
    envOrDefault_ne_empty env.awsRegion "us-east-1" (by decide)
  have htab : (mkAwsServiceConfig env).dynamoDbTableName ≠ "" :=
    envOrDefault_ne_empty env.dynamoDbTableName "account-termination-metadata" (by decide)
  constructor
  · simp [validateConfig, truthy, and_assoc]
  · rw [← not_iff_not]
    push_neg
    simp only [Bool.not_eq_false]
    simp [validateConfig, truthy, hreg, htab]

/-- C9 witness: the characterisation applied to a concrete environment with
an unset role ARN (validation fails) and to a fully-set one (it passes). -/
theorem C9_witness :
    validateConfig (mkAwsServiceConfig
      { awsRegion := none, managementAccountRoleArn := none,
        suspendedOuId := some "ou-x", dynamoDbTableName := none }) = false ∧
    validateConfig (mkAwsServiceConfig
      { awsRegion := some "us-west-2", managementAccountRoleArn := some "arn:aws:iam::1:role/r",
        suspendedOuId := some "ou-x", dynamoDbTableName := some "tbl" }) = true := by
  constructor
  · exact (C9_validateConfig _).2.mpr (Or.inl (by decide))
  · exact (C9_validateConfig _).1.mpr (by refine ⟨?_, ?_, ?_, ?_⟩ <;> decide)

/-- C10: the subnet and security-group lists never contain an entry whose trim
is empty (so neither empty nor whitespace-only entries); each list is exactly
the comma-split of its variable with blank entries filtered out; and an unset
or empty variable yields the empty list. -/
theorem C10_vpc_lists (env : VpcEnv) :
    (∀ x ∈ (getVpcConfig env).privateSubnetIds, jsTrim x ≠ "") ∧
    (∀ x ∈ (getVpcConfig env).securityGroupIds, jsTrim x ≠ "") ∧
    (getVpcConfig env).privateSubnetIds =
      (jsSplitComma (envOrDefault env.privateSubnetIds "")).filter
        (fun id => truthy (jsTrim id)) ∧
    (getVpcConfig env).securityGroupIds =
      (jsSplitComma (envOrDefault env.securityGroupIds "")).filter
        (fun id => truthy (jsTrim id)) ∧
    ((env.privateSubnetIds = none ∨ env.privateSubnetIds = some "") →
      (getVpcConfig env).privateSubnetIds = []) ∧
    ((env.securityGroupIds = none ∨ env.securityGroupIds = some "") →
      (getVpcConfig env).securityGroupIds = []) := by
  refine ⟨?_, ?_, rfl, rfl, ?_, ?_⟩
  · intro x hx
    have := List.of_mem_filter hx
    simpa [truthy] using this
  · intro x hx
    have := List.of_mem_filter hx
    simpa [truthy] using this
  · rintro (h | h) <;>
      simp [getVpcConfig, h, envOrDefault, jsSplitComma, jsTrim, truthy]
  · rintro (h | h) <;>
      simp [getVpcConfig, h, envOrDefault, jsSplitComma, jsTrim, truthy]

/-- C10 witness: the theorem applied to the test-setup environment, extracting
that a concrete kept entry is not blank and that an unset list is empty. -/
theorem C10_witness :
    (∀ x ∈ (getVpcConfig
      { vpcId := some "vpc-test123", privateSubnetIds := some "subnet-test1,subnet-test2",
        securityGroupIds := none, natGatewayId := none }).privateSubnetIds, jsTrim x ≠ "") ∧
    (getVpcConfig
      { vpcId := some "vpc-test123", privateSubnetIds := some "subnet-test1,subnet-test2",
        securityGroupIds := none, natGatewayId := none }).securityGroupIds = [] := by
  have h := C10_vpc_lists
    { vpcId := some "vpc-test123", privateSubnetIds := some "subnet-test1,subnet-test2",
      securityGroupIds := none, natGatewayId := none }
  exact ⟨h.1, h.2.2.2.2.2 (Or.inl rfl)⟩

/-! ## Metadata store, record shape from `src/config.ts`, upsert modelled
from the spec (the metadata-update Lambda under `src/lambdas/metadata-update`
is not part of `src/`) -/

/-- From `config.ts` `AccountMetadata.status`. -/
inductive AccountStatus where
  | ACTIVE
  | TERMINATING
  | TERMINATED
  | FAILED
deriving Repr, DecidableEq

/-- From `config.ts` `AccountMetadata.preCheckResults`. -/
structure PreCheckResults where
  ebsVolumes : Nat
  rdsInstances : Nat
  safeToTerminate : Bool
deriving Repr, DecidableEq

/-- From `config.ts` `AccountMetadata.vendorDecommissionResults` entries. -/
structure VendorDecommissionResult where
  success : Bool
  message : String
  timestamp : String
deriving Repr, DecidableEq

/-- From `config.ts` `AccountMetadata`. -/
structure AccountMetadata where
  accountId : String
  status : AccountStatus
  terminationInitiated : String
  terminationCompleted : Option String
  executionArn : String
  preCheckResults : PreCheckResults
  organizationalUnit : String
  vendorDecommissionResults : List (String × VendorDecommissionResult)
  createdAt : String
  updatedAt : String
deriving Repr, DecidableEq

/-- Modelled from the spec: a stage patch for `upsert(accountId, patch)` —
last-write-wins per field (each stage owns the fields it writes), never a
destructive overwrite of the whole record; `none` leaves a field untouched. -/
structure MetadataPatch where
  status : Option AccountStatus
  terminationInitiated : Option String
  terminationCompleted : Option String
  executionArn : Option String
  preCheckResults : Option PreCheckResults
  organizationalUnit : Option String
  vendorDecommissionResults : Option (List (String × VendorDecommissionResult))
deriving Repr, DecidableEq

/-- Modelled from the spec: apply a patch to an existing record — fields
present in the patch overwrite, absent fields are kept, `createdAt` is fixed
and `updatedAt` is refreshed on every write. -/
def applyPatch (m : AccountMetadata) (p : MetadataPatch) (now : String) : AccountMetadata :=
  { accountId := m.accountId
    status := p.status.getD m.status
    terminationInitiated := p.terminationInitiated.getD m.terminationInitiated
    terminationCompleted :=
      match p.terminationCompleted with
      | some v => some v
      | none => m.terminationCompleted
    executionArn := p.executionArn.getD m.executionArn
    preCheckResults := p.preCheckResults.getD m.preCheckResults
    organizationalUnit := p.organizationalUnit.getD m.organizationalUnit
    vendorDecommissionResults :=
      p.vendorDecommissionResults.getD m.vendorDecommissionResults
    createdAt := m.createdAt
    updatedAt := now }

/-- Modelled from the spec: the record created on the first write for an
account (`createdAt` fixed at first write). -/
def freshMetadata (accountId now : String) : AccountMetadata :=
  { accountId := accountId
    status := AccountStatus.ACTIVE
    terminationInitiated := ""
    terminationCompleted := none
    executionArn := ""
    preCheckResults := { ebsVolumes := 0, rdsInstances := 0, safeToTerminate := true }
    organizationalUnit := ""
    vendorDecommissionResults := []
    createdAt := now
    updatedAt := now }

/-- Modelled from the spec: `upsert(accountId, patch)` — create the record on
first write, patch it on subsequent writes. -/
def upsert (existing : Option AccountMetadata) (accountId : String)
    (p : MetadataPatch) (now : String) : AccountMetadata :=
  match existing with
  | some m => applyPatch m p now
  | none => applyPatch (freshMetadata accountId now) p now

/-- Erase the one field the claim excludes from the comparison. -/
def clearUpdatedAt (m : AccountMetadata) : AccountMetadata :=
  { m with updatedAt := "" }

theorem getD_getD {β : Type} (o : Option β) (x : β) : o.getD (o.getD x) = o.getD x := by
  cases o <;> rfl

/-- C8: applying the same stage patch twice via upsert yields a stored record
identical to applying it once, except for `updatedAt`. -/
theorem C8_upsert_idempotent (existing : Option AccountMetadata)
    (accountId : String) (p : MetadataPatch) (t1 t2 : String) :
    clearUpdatedAt (upsert (some (upsert existing accountId p t1)) accountId p t2) =
      clearUpdatedAt (upsert existing accountId p t1) := by
  cases existing with
  | some m =>
    simp only [upsert, applyPatch, clearUpdatedAt]
    simp [getD_getD]
    cases p.terminationCompleted <;> simp
  | none =>
    simp only [upsert, applyPatch, clearUpdatedAt]
    simp [getD_getD]
    cases p.terminationCompleted <;> simp

end AccountTermination
